import Mathlib

/-!
Shallow embedding of the booking-engine API (FastAPI + MongoDB) for
specification checking.  Collections are modelled as Lean lists kept in
insertion order (MongoDB natural order), machine nondeterminism (uuid4,
clocks) is threaded as explicit parameters, and Python exceptions are
modelled with `Except`.
-/

set_option autoImplicit false

namespace BookingEngine

/-- Python exception outcomes observable at the HTTP layer: an
`HTTPException(status, detail)` (with an optional `WWW-Authenticate`
challenge header), an `AttributeError` on a missing attribute, a
`TypeError` (subscripting `None`), or a `KeyError`. -/
inductive PyExc where
  | http (status : Nat) (detail : String) (challenge : Option String)
  | attributeError (name : String)
  | typeError
  | keyError
  deriving DecidableEq, Repr

/-- Application settings as declared by `Settings` in src/app/config.py.
Note the declared fields exactly: there is no `api_key` field. -/
structure Settings where
  mongodb_uri : String
  mongodb_db : String := "booking"
  jwt_secret_key : String
  jwt_expire_minutes : Nat := 60
  smtp_host : String
  smtp_port : Nat
  smtp_user : String
  smtp_pass : String
  smtp_from_email : String
  deriving DecidableEq, Repr

/-- A value held by one of the settings attributes (string- or int-typed). -/
inductive AttrValue where
  | str (s : String)
  | nat (n : Nat)
  deriving DecidableEq, Repr

/-- Python attribute access on the pydantic `Settings` instance: returns the
value of a declared field, and `none` (an `AttributeError` at the call
site) for any undeclared attribute name, since pydantic-settings ignores
undeclared fields (`extra` defaults to ignore). -/
def Settings.getattr (s : Settings) (name : String) : Option AttrValue :=
  match name with
  | "mongodb_uri" => some (.str s.mongodb_uri)
  | "mongodb_db" => some (.str s.mongodb_db)
  | "jwt_secret_key" => some (.str s.jwt_secret_key)
  | "jwt_expire_minutes" => some (.nat s.jwt_expire_minutes)
  | "smtp_host" => some (.str s.smtp_host)
  | "smtp_port" => some (.nat s.smtp_port)
  | "smtp_user" => some (.str s.smtp_user)
  | "smtp_pass" => some (.str s.smtp_pass)
  | "smtp_from_email" => some (.str s.smtp_from_email)
  | _ => none

/-- Embedding of `get_api_key` (src/app/auth/api_key.py).  The header value
is `none` when absent (`APIKeyHeader(auto_error=False)`).  Python evaluates
`not api_key or api_key != settings.api_key` left to right: a missing or
empty header short-circuits to the 403; otherwise `settings.api_key` is
read, which is an `AttributeError` whenever `getattr` yields `none`. -/
def get_api_key (api_key : Option String) (s : Settings) : Except PyExc Unit :=
  match api_key with
  | none => .error (.http 403 "Invalid or missing API Key" none)
  | some k =>
    if k = "" then .error (.http 403 "Invalid or missing API Key" none)
    else
      match s.getattr "api_key" with
      | none => .error (.attributeError "api_key")
      | some v =>
        if v = .str k then .ok () else .error (.http 403 "Invalid or missing API Key" none)

/-- Claim set of a JWT as produced by `create_access_token`
(src/app/auth/jwt.py): a subject (absent when the encoder was given no
`sub`) and an expiry instant in seconds. -/
structure TokenPayload where
  sub : Option String
  exp : Nat
  deriving DecidableEq, Repr

/-- A signed token: the claim set together with the key it was signed
with.  Signature verification succeeds exactly when the verifier's secret
equals the signing key (symmetric HS256). -/
structure SignedToken where
  payload : TokenPayload
  key : String
  deriving DecidableEq, Repr

/-- Errors raised by `jose.jwt.decode`; both are subclasses of `JWTError`. -/
inductive JWTError where
  | invalidSignature
  | expiredSignature
  deriving DecidableEq, Repr

/-- Embedding of `jose.jwt.decode(token, secret, algorithms=[ALGORITHM])`:
rejects a wrong signature, then rejects an expired token (`exp < now` with
zero leeway), otherwise yields the claim set. -/
def jwtDecode (t : SignedToken) (secret : String) (now : Nat) : Except JWTError TokenPayload :=
  if t.key ≠ secret then .error .invalidSignature
  else if t.payload.exp < now then .error .expiredSignature
  else .ok t.payload

/-- Embedding of `create_access_token` (src/app/auth/jwt.py): claims are
exactly `{sub, exp}`, where `exp` is `now` plus the requested lifetime in
seconds, defaulting to `settings.jwt_expire_minutes` minutes; signed with
`settings.jwt_secret_key`. -/
def create_access_token (s : Settings) (subject : String) (expires_delta : Option Nat)
    (now : Nat) : SignedToken :=
  { payload := { sub := some subject, exp := now + expires_delta.getD (s.jwt_expire_minutes * 60) }
    key := s.jwt_secret_key }

/-- The 401 raised by `get_current_user` (src/app/auth/dependencies.py),
carrying the `WWW-Authenticate: Bearer` challenge header. -/
def credentials_exception : PyExc :=
  .http 401 "Could not validate credentials" (some "Bearer")

/-- Embedding of `get_current_user` (src/app/auth/dependencies.py): decode
the bearer token; any `JWTError` becomes the credentials 401; then
`payload.get("sub")` is taken and `if not user_id` rejects both a missing
subject (`None`) and an empty-string subject, since both are falsy. -/
def get_current_user (token : SignedToken) (secret : String) (now : Nat) :
    Except PyExc String :=
  match jwtDecode token secret now with
  | .error _ => .error credentials_exception
  | .ok payload =>
    match payload.sub with
    | none => .error credentials_exception
    | some user_id => if user_id = "" then .error credentials_exception else .ok user_id

/-- Modelled from the spec: the module `app.auth.hash` (imported by
src/app/main.py and src/app/commands/user_handlers.py for `hash_password`
and `verify_password`) is not present under src/.  The spec describes the
Password Hasher as a one-way hash of a credential; we model it as an
injective tagging of the plaintext. -/
def hash_password (password : String) : String :=
  "$2b$12$" ++ password

/-- Modelled from the spec: verification compares a plaintext candidate
against a stored hash, succeeding exactly when the stored hash is the hash
of the candidate. -/
def verify_password (plain hashed : String) : Bool :=
  hash_password plain == hashed

/-- A document of the `users` collection, with the fields written by
`register_user` (src/app/commands/user_handlers.py): `_id`, `email`,
`hashed_password`, `full_name`, `created_at` (timestamps as instants). -/
structure UserRec where
  _id : String
  email : String
  hashed_password : String
  full_name : String
  created_at : Nat
  deriving DecidableEq, Repr

/-- Request body of registration (`UserIn` in src/app/models/user.py). -/
structure UserIn where
  email : String
  password : String
  full_name : String
  deriving DecidableEq, Repr

/-- Response shape of user-returning routes (`UserOut` in
src/app/models/user.py). -/
structure UserOut where
  id : String
  email : String
  full_name : String
  created_at : Nat
  deriving DecidableEq, Repr

/-- Request body of the change-password route (`PasswordUpdate` in
src/app/models/user.py). -/
structure PasswordUpdate where
  old_password : String
  new_password : String
  deriving DecidableEq, Repr

/-- MongoDB `find_one({"_id": user_id})` on the `users` collection: the
first document in natural order whose `_id` equals the queried id. -/
def find_one (users : List UserRec) (user_id : String) : Option UserRec :=
  users.find? (fun u => u._id == user_id)

/-- MongoDB `find_one({"email": email})` on the `users` collection. -/
def find_one_email (users : List UserRec) (email : String) : Option UserRec :=
  users.find? (fun u => u.email == email)

/-- MongoDB `update_one(filter, {"$set": ...})`: rewrites the first
matching document in place (positions of all documents preserved), and
does nothing when no document matches. -/
def updateFirst (p : UserRec → Bool) (f : UserRec → UserRec) :
    List UserRec → List UserRec
  | [] => []
  | u :: rest => if p u then f u :: rest else u :: updateFirst p f rest

/-- The filter `{"_id": user_id}` where `user_id` may be Python `None`
(as happens in the reset-password flow when the token has no `sub`): a
`None` id matches no stored document because every stored `_id` is a
string. -/
def mongoIdMatches (user_id : Option String) (u : UserRec) : Bool :=
  match user_id with
  | none => false
  | some x => u._id == x

/-- Embedding of `register_user` (src/app/commands/user_handlers.py).
`fresh` stands for the `str(uuid4())` drawn by the call and `now` for
`datetime.now(timezone.utc)`.  `insertedUser` is the `user` dict literal
built there; `register_user` returns the inserted record and the new
collection, or the `ValueError` message. -/
def insertedUser (fresh : String) (now : Nat) (data : UserIn) : UserRec :=
  { _id := fresh
    email := data.email
    hashed_password := hash_password data.password
    full_name := data.full_name
    created_at := now }

def register_user (fresh : String) (now : Nat) (data : UserIn) (users : List UserRec) :
    Except String (UserRec × List UserRec) :=
  match find_one_email users data.email with
  | some _ => .error "Email already registered"
  | none =>
    let user : UserRec := insertedUser fresh now data
    .ok (user, users ++ [user])

/-- Embedding of `update_user` (src/app/commands/user_handlers.py): the
`$set` of the patch (whose only field is `full_name`, per `UserUpdate`)
on the first document matching `_id`, followed by the `find_one` whose
result is returned. -/
def update_user (user_id : String) (full_name : String) (users : List UserRec) :
    Option UserRec × List UserRec :=
  let users' := updateFirst (fun u => u._id == user_id)
    (fun u => { u with full_name := full_name }) users
  (find_one users' user_id, users')

/-- Embedding of `update_password` (src/app/commands/user_handlers.py):
`update_one({"_id": user_id}, {"$set": {"hashed_password": hash(new)}})`.
The id is an `Option` because the reset-password route passes
`payload.get("sub")`, which may be `None`. -/
def update_password (user_id : Option String) (new_password : String)
    (users : List UserRec) : List UserRec :=
  updateFirst (mongoIdMatches user_id)
    (fun u => { u with hashed_password := hash_password new_password }) users

/-- A document of the `events` collection (src/app/commands/events.py):
discriminator `type`, free-form string-valued payload `data` (an ordered
association list, first binding wins on lookup), and a timestamp. -/
structure Event where
  type : String
  data : List (String × String)
  timestamp : Nat
  deriving DecidableEq, Repr

/-- Python `d[k]` / Mongo dotted-path lookup on an event payload: the
value bound to the key, if any. -/
def dictGet (d : List (String × String)) (k : String) : Option String :=
  (d.find? (fun p => p.1 == k)).map (fun p => p.2)

/-- Embedding of `BookingCreated.create` (src/app/commands/events.py):
type `BookingCreated`, payload `{id: str(uuid4()), user_id, slot}`, and
the creation instant. -/
def BookingCreated_create (fresh user_id slot : String) (now : Nat) : Event :=
  { type := "BookingCreated"
    data := [("id", fresh), ("user_id", user_id), ("slot", slot)]
    timestamp := now }

/-- Embedding of `handle_create_booking`
(src/app/commands/booking_handlers.py): build the event, `insert_one` it
(append in natural order), and return `event.data`. -/
def handle_create_booking (fresh : String) (now : Nat) (user_id slot : String)
    (log : List Event) : List (String × String) × List Event :=
  let event := BookingCreated_create fresh user_id slot now
  (event.data, log ++ [event])

/-- A `BookingView` (src/app/models/booking.py). -/
structure BookingView where
  id : String
  user_id : String
  slot : String
  deriving DecidableEq, Repr

/-- The Mongo filter `{"type": "BookingCreated", "data.user_id": user_id}`
used by `handle_list_bookings`: an event matches when its type is
`BookingCreated` and its payload binds `user_id` to the queried id. -/
def matchesBooking (user_id : String) (e : Event) : Bool :=
  match dictGet e.data "user_id" with
  | none => false
  | some x => e.type == "BookingCreated" && x == user_id

/-- One step of the list comprehension in `handle_list_bookings`:
`BookingView(id=doc["data"]["id"], ...)`; a missing key is a `KeyError`,
modelled as `none`. -/
def projectView (e : Event) : Option BookingView :=
  match dictGet e.data "id", dictGet e.data "user_id", dictGet e.data "slot" with
  | some i, some u, some s => some { id := i, user_id := u, slot := s }
  | _, _, _ => none

/-- The whole comprehension: projects every fetched event in order,
aborting at the first `KeyError`. -/
def projectAll : List Event → Option (List BookingView)
  | [] => some []
  | e :: rest =>
    match projectView e, projectAll rest with
    | some v, some vs => some (v :: vs)
    | _, _ => none

/-- Embedding of `handle_list_bookings`
(src/app/queries/booking_handlers.py): fetch the events matching the
filter in natural order and project each into a `BookingView`. -/
def handle_list_bookings (log : List Event) (user_id : String) :
    Option (List BookingView) :=
  projectAll (log.filter (matchesBooking user_id))

/-- The persistent state of the application: the three collections
declared in src/app/db.py (`users`, `events`, `read_models`; the last is
declared but never written by any handler). -/
structure AppState where
  users : List UserRec
  events : List Event
  read_models : List Event
  deriving DecidableEq, Repr

namespace Routes

/-- Route `POST /auth/register` (src/app/main.py): `register_user`, with
the `ValueError` mapped to a 400 and the inserted record projected into
the `UserOut` response on a 201. -/
def register (fresh : String) (now : Nat) (data : UserIn) (st : AppState) :
    Except PyExc (Nat × UserOut) × AppState :=
  match register_user fresh now data st.users with
  | .error e => (.error (.http 400 e none), st)
  | .ok (user, users') =>
    (.ok (201, { id := user._id, email := user.email, full_name := user.full_name,
                 created_at := user.created_at }),
     { st with users := users' })

/-- Route `POST /auth/token` (src/app/main.py): look the user up by the
form username, verify the password, and issue an access token with the
default lifetime. -/
def login (username password : String) (s : Settings) (now : Nat) (st : AppState) :
    Except PyExc (Nat × SignedToken) × AppState :=
  match find_one_email st.users username with
  | none => (.error (.http 401 "Invalid credentials" none), st)
  | some user =>
    if verify_password password user.hashed_password then
      (.ok (200, create_access_token s user._id none now), st)
    else
      (.error (.http 401 "Invalid credentials" none), st)

/-- Route `POST /auth/recover-password` (src/app/main.py): 404 when the
email is unknown; otherwise a 60-minute token is issued and emailed (the
email transport is external; the token is returned here as the observable
output). -/
def recover_password (email : String) (s : Settings) (now : Nat) (st : AppState) :
    Except PyExc (Nat × String × SignedToken) × AppState :=
  match find_one_email st.users email with
  | none => (.error (.http 404 "User not found" none), st)
  | some user =>
    (.ok (200, "Recovery email sent", create_access_token s user._id (some (60 * 60)) now), st)

/-- Route `POST /auth/reset-password` (src/app/main.py): decode the token
inline; a `JWTError` is a 400; otherwise `payload.get("sub")` (possibly
`None`) is passed to `update_password` and the route answers 200. -/
def reset_password (token : SignedToken) (new_password : String) (s : Settings)
    (now : Nat) (st : AppState) : Except PyExc (Nat × String) × AppState :=
  match jwtDecode token s.jwt_secret_key now with
  | .error _ => (.error (.http 400 "Invalid or expired token" none), st)
  | .ok payload =>
    (.ok (200, "Password updated"),
     { st with users := update_password payload.sub new_password st.users })

/-- Route `GET /users/me` (src/app/main.py), after the bearer dependency
has produced `user_id`: subscripting the `find_one` result, which is a
`TypeError` when the user vanished. -/
def read_profile (user_id : String) (st : AppState) :
    Except PyExc (Nat × UserOut) × AppState :=
  match find_one st.users user_id with
  | none => (.error .typeError, st)
  | some u =>
    (.ok (200, { id := u._id, email := u.email, full_name := u.full_name,
                 created_at := u.created_at }), st)

/-- Route `PUT /users/me` (src/app/main.py): `update_user` with the
patch's one field, then the response projection of the returned record. -/
def update_profile (full_name : String) (user_id : String) (st : AppState) :
    Except PyExc (Nat × UserOut) × AppState :=
  match update_user user_id full_name st.users with
  | (none, users') => (.error .typeError, { st with users := users' })
  | (some updated, users') =>
    (.ok (200, { id := updated._id, email := updated.email,
                 full_name := updated.full_name, created_at := updated.created_at }),
     { st with users := users' })

/-- Route `PUT /users/me/password` (src/app/main.py): fetch the caller's
record, verify the old password against the stored hash (400 on
mismatch), then overwrite the hash. -/
def change_password (data : PasswordUpdate) (user_id : String) (st : AppState) :
    Except PyExc (Nat × String) × AppState :=
  match find_one st.users user_id with
  | none => (.error .typeError, st)
  | some user =>
    if verify_password data.old_password user.hashed_password then
      (.ok (200, "Password changed successfully"),
       { st with users := update_password (some user_id) data.new_password st.users })
    else
      (.error (.http 400 "Old password incorrect" none), st)

/-- Route `POST /bookings` (src/app/main.py): `handle_create_booking` and
a 201 with the event payload. -/
def create_booking (fresh : String) (now : Nat) (slot : String) (user_id : String)
    (st : AppState) : Except PyExc (Nat × List (String × String)) × AppState :=
  let r := handle_create_booking fresh now user_id slot st.events
  (.ok (201, r.1), { st with events := r.2 })

/-- Route `GET /bookings` (src/app/main.py): `handle_list_bookings` on the
event log, a `KeyError` surfacing if a fetched payload lacks a field. -/
def list_bookings (user_id : String) (st : AppState) :
    Except PyExc (Nat × List BookingView) × AppState :=
  match handle_list_bookings st.events user_id with
  | none => (.error .keyError, st)
  | some items => (.ok (200, items), st)

end Routes

/-- The identity-verification outcome a protected route observes in a
given application state: `get_current_user` (src/app/auth/dependencies.py)
computes solely from the presented token, the configured secret and the
clock — it reads no collection, so the state parameter only records the
store at the moment of the request. -/
def authOutcome (token : SignedToken) (s : Settings) (now : Nat) (_st : AppState) :
    Except PyExc String :=
  get_current_user token s.jwt_secret_key now

/-- Concrete sample data used by the witnesses. -/
def demoUser : UserRec :=
  { _id := "user-1", email := "alice@example.com",
    hashed_password := hash_password "OldPw1!", full_name := "Alice", created_at := 0 }

def demoSettings : Settings :=
  { mongodb_uri := "mongodb://localhost:27017", mongodb_db := "booking",
    jwt_secret_key := "secret", jwt_expire_minutes := 60, smtp_host := "smtp.local",
    smtp_port := 587, smtp_user := "mailer", smtp_pass := "mailpass",
    smtp_from_email := "noreply@example.com" }

def demoLog : List Event :=
  [BookingCreated_create "b1" "A" "2030-01-01T10:00" 0,
   BookingCreated_create "b2" "A" "2030-01-02T10:00" 1,
   BookingCreated_create "b3" "B" "2030-01-03T10:00" 2]

/-! Derived notions used to state the claims, and shared lemmas. -/

/-- An event payload carries the three booking fields (all events written
by `handle_create_booking` do). -/
def hasKeys (e : Event) : Bool :=
  (dictGet e.data "id").isSome && (dictGet e.data "user_id").isSome &&
    (dictGet e.data "slot").isSome

/-- The `{id, user_id, slot}` projection of an event payload. -/
def viewOf (e : Event) : BookingView :=
  { id := (dictGet e.data "id").getD ""
    user_id := (dictGet e.data "user_id").getD ""
    slot := (dictGet e.data "slot").getD "" }

theorem projectView_of_hasKeys (e : Event) (h : hasKeys e = true) :
    projectView e = some (viewOf e) := by
  unfold hasKeys at h
  unfold projectView viewOf
  cases hi : dictGet e.data "id" <;> cases hu : dictGet e.data "user_id" <;>
    cases hs : dictGet e.data "slot" <;> simp [hi, hu, hs] at h ⊢

theorem projectAll_eq_map (l : List Event) (h : ∀ e ∈ l, hasKeys e = true) :
    projectAll l = some (l.map viewOf) := by
  induction l with
  | nil => rfl
  | cons e rest ih =>
    have he := h e (List.mem_cons_self e rest)
    have hrest := ih (fun x hx => h x (List.mem_cons_of_mem _ hx))
    simp [projectAll, projectView_of_hasKeys e he, hrest]

theorem matchesBooking_eq_true_iff (u : String) (e : Event) :
    matchesBooking u e = true ↔
      e.type = "BookingCreated" ∧ dictGet e.data "user_id" = some u := by
  unfold matchesBooking
  cases h : dictGet e.data "user_id" <;> simp [h]

theorem updateFirst_no_match (p : UserRec → Bool) (f : UserRec → UserRec)
    (l : List UserRec) (h : ∀ u ∈ l, p u = false) : updateFirst p f l = l := by
  induction l with
  | nil => rfl
  | cons u rest ih =>
    have hu := h u (List.mem_cons_self u rest)
    simp [updateFirst, hu, ih (fun x hx => h x (List.mem_cons_of_mem _ hx))]

theorem find?_updateFirst (p : UserRec → Bool) (f : UserRec → UserRec)
    (hpf : ∀ u, p (f u) = p u) (l : List UserRec) :
    (updateFirst p f l).find? p = (l.find? p).map f := by
  induction l with
  | nil => rfl
  | cons u rest ih =>
    cases hpu : p u with
    | true =>
      rw [updateFirst, if_pos hpu, List.find?_cons_of_pos _ ((hpf u).trans hpu),
        List.find?_cons_of_pos _ hpu, Option.map_some']
    | false =>
      rw [updateFirst, if_neg (by simp [hpu]),
        List.find?_cons_of_neg _ (by simp [hpu]), List.find?_cons_of_neg _ (by simp [hpu]), ih]

theorem find?_append_of_none {α : Type} (p : α → Bool) {l₁ : List α} (l₂ : List α)
    (h : l₁.find? p = none) : (l₁ ++ l₂).find? p = l₂.find? p := by
  induction l₁ with
  | nil => rfl
  | cons a rest ih =>
    rw [List.find?_cons] at h
    cases hpa : p a with
    | true => rw [hpa] at h; exact absurd h (by simp)
    | false =>
      rw [hpa] at h
      rw [List.cons_append, List.find?_cons_of_neg _ (by simp [hpa]), ih h]

/-! Claims. -/

/-- C7: for every user id and slot string (no validation of the slot, no
overlap check), `handle_create_booking` appends exactly one
`BookingCreated` event carrying the fresh id, the user id and the slot,
and returns the embedded payload unchanged; when the fresh id is new to
the log, exactly one event of the resulting log carries it. -/
theorem create_booking_appends (fresh : String) (now : Nat) (u s : String)
    (log : List Event) (hfresh : ∀ e ∈ log, dictGet e.data "id" ≠ some fresh) :
    handle_create_booking fresh now u s log =
      ([("id", fresh), ("user_id", u), ("slot", s)],
        log ++ [BookingCreated_create fresh u s now])
    ∧ BookingCreated_create fresh u s now =
        { type := "BookingCreated",
          data := [("id", fresh), ("user_id", u), ("slot", s)], timestamp := now }
    ∧ ((log ++ [BookingCreated_create fresh u s now]).filter
        (fun e => decide (dictGet e.data "id" = some fresh))).length = 1 := by
  refine ⟨rfl, rfl, ?_⟩
  rw [List.filter_append]
  have h0 : (log.filter fun e => decide (dictGet e.data "id" = some fresh)) = [] := by
    rw [List.filter_eq_nil_iff]
    intro e he
    simp [hfresh e he]
  have h1 : dictGet (BookingCreated_create fresh u s now).data "id" = some fresh := by
    simp [BookingCreated_create, dictGet]
  simp [h0, h1]

theorem create_booking_appends_witness :
    handle_create_booking "b9" 5 "A" "2031-05-05T09:00" demoLog =
      ([("id", "b9"), ("user_id", "A"), ("slot", "2031-05-05T09:00")],
        demoLog ++ [BookingCreated_create "b9" "A" "2031-05-05T09:00" 5]) :=
  (create_booking_appends "b9" 5 "A" "2031-05-05T09:00" demoLog (by decide)).1

/-- C2: a request with the `x-api-key` header absent (or empty) is refused
with 403 before any route logic; but a request whose header is present and
non-empty makes `get_api_key` read `settings.api_key`, an attribute the
`Settings` class never declares, so the comparison raises `AttributeError`
(an HTTP 500) instead of the 403 the spec promises — for EVERY header
value, right or wrong, since no API-key secret exists to compare with. -/
theorem api_key_gate_bug (s : Settings) (k : String) (hk : k ≠ "") :
    get_api_key none s = .error (.http 403 "Invalid or missing API Key" none)
    ∧ get_api_key (some "") s = .error (.http 403 "Invalid or missing API Key" none)
    ∧ Settings.getattr s "api_key" = none
    ∧ get_api_key (some k) s = .error (.attributeError "api_key") := by
  refine ⟨rfl, by simp [get_api_key], rfl, ?_⟩
  simp [get_api_key, hk, Settings.getattr]

theorem api_key_gate_bug_witness :
    get_api_key (some "wrong-key") demoSettings = .error (.attributeError "api_key") :=
  (api_key_gate_bug demoSettings "wrong-key" (by decide)).2.2.2

/-- C4 counterexample: a token signed with the right secret, unexpired,
and carrying the subject claim `""` is rejected with the credentials 401
even though none of the three stated failure conditions (bad signature,
expiry, missing subject) holds — `if not user_id` also rejects a falsy
empty-string subject. -/
theorem bearer_iff_counterexample :
    get_current_user { payload := { sub := some "", exp := 10 }, key := "secret" }
        "secret" 0 = .error credentials_exception
    ∧ ¬(("secret" : String) ≠ "secret" ∨ (10 : Nat) < 0 ∨
        (some "" : Option String) = none) := by
  exact ⟨rfl, by decide⟩

/-- C4 (amended): verification fails with the 401 credentials challenge
iff the signature is invalid, the token is expired, or the subject claim
is missing OR EMPTY; otherwise it returns the subject claim. -/
theorem bearer_verification_amended (t : SignedToken) (secret : String) (now : Nat) :
    (get_current_user t secret now = .error credentials_exception ↔
      t.key ≠ secret ∨ t.payload.exp < now ∨ t.payload.sub = none ∨
        t.payload.sub = some "")
    ∧ (∀ u : String,
        get_current_user t secret now = .ok u ↔
          t.key = secret ∧ ¬t.payload.exp < now ∧ t.payload.sub = some u ∧ u ≠ "") := by
  unfold get_current_user jwtDecode
  by_cases hk : t.key = secret
  · by_cases he : t.payload.exp < now
    · simp [hk, he]
    · cases hs : t.payload.sub with
      | none => simp [hk, he, hs]
      | some u' =>
        by_cases hu : u' = ""
        · simp [hk, he, hs, hu]
        · constructor
          · simp [hk, he, hs, hu]
          · intro u
            by_cases huu : u' = u
            · subst huu; simp [hk, he, hs, hu]
            · simp [hk, he, hs, hu, huu]
  · simp [hk]

/-- C1: for every event log whose `BookingCreated` entries for the queried
user carry the booking fields, `handle_list_bookings` returns exactly the
`{id, user_id, slot}` projections of the log entries whose type is
`BookingCreated` and whose payload `user_id` equals the queried id; every
returned view belongs to the queried user, and an event whose payload
`user_id` is some other id `a ≠ u` never contributes. -/
theorem booking_list_projection (log : List Event) (u : String)
    (h : ∀ e ∈ log, matchesBooking u e = true → hasKeys e = true) :
    handle_list_bookings log u = some ((log.filter (matchesBooking u)).map viewOf)
    ∧ (∀ v ∈ (log.filter (matchesBooking u)).map viewOf, v.user_id = u)
    ∧ (∀ e ∈ log, ∀ a : String, dictGet e.data "user_id" = some a → a ≠ u →
        e ∉ log.filter (matchesBooking u)) := by
  refine ⟨?_, ?_, ?_⟩
  · unfold handle_list_bookings
    exact projectAll_eq_map _
      (fun e he => h e (List.mem_filter.mp he).1 (List.mem_filter.mp he).2)
  · intro v hv
    rcases List.mem_map.mp hv with ⟨e, he, rfl⟩
    rcases (matchesBooking_eq_true_iff u e).mp (List.mem_filter.mp he).2 with ⟨-, hu⟩
    simp [viewOf, hu]
  · intro e he a ha hane hmem
    rcases (matchesBooking_eq_true_iff u e).mp (List.mem_filter.mp hmem).2 with ⟨-, hu⟩
    rw [ha] at hu
    exact hane (Option.some.inj hu)

theorem booking_list_projection_witness :
    handle_list_bookings demoLog "A" =
      some ((demoLog.filter (matchesBooking "A")).map viewOf) :=
  (booking_list_projection demoLog "A" (by decide)).1

/-- C3: registering an email not present in the store answers 201 and
appends exactly one record, holding the supplied fresh id, the hash of
the password, and the request timestamp (unique in the store when the id
is fresh); re-registering the same email then answers 400 with the
"Email already registered" detail and leaves the store untouched. -/
theorem register_unique_email (fresh fresh2 : String) (now now2 : Nat) (d : UserIn)
    (st : AppState)
    (hemail : ∀ u ∈ st.users, u.email ≠ d.email)
    (hid : ∀ u ∈ st.users, u._id ≠ fresh) :
    Routes.register fresh now d st =
      (.ok (201, { id := fresh, email := d.email, full_name := d.full_name,
                   created_at := now }),
       { st with users := st.users ++ [insertedUser fresh now d] })
    ∧ insertedUser fresh now d =
      { _id := fresh, email := d.email, hashed_password := hash_password d.password,
        full_name := d.full_name, created_at := now }
    ∧ ((st.users ++ [insertedUser fresh now d]).filter
        (fun u => decide (u._id = fresh))).length = 1
    ∧ Routes.register fresh2 now2 d { st with users := st.users ++ [insertedUser fresh now d] } =
      (.error (.http 400 "Email already registered" none),
       { st with users := st.users ++ [insertedUser fresh now d] }) := by
  have hnone : find_one_email st.users d.email = none := by
    rw [find_one_email, List.find?_eq_none]
    intro u hu
    simp [hemail u hu]
  refine ⟨?_, rfl, ?_, ?_⟩
  · unfold Routes.register register_user
    rw [hnone]
    rfl
  · rw [List.filter_append]
    have h0 : (st.users.filter fun u => decide (u._id = fresh)) = [] := by
      rw [List.filter_eq_nil_iff]
      intro u hu
      simp [hid u hu]
    simp [h0, insertedUser]
  · unfold Routes.register register_user
    have hfound : find_one_email (st.users ++ [insertedUser fresh now d]) d.email =
        some (insertedUser fresh now d) := by
      rw [find_one_email, find?_append_of_none _ _ hnone,
        List.find?_cons_of_pos _ (by simp [insertedUser])]
    rw [hfound]

theorem register_unique_email_witness :
    Routes.register "u-1" 0 { email := "a@example.com", password := "pw1", full_name := "Ann" }
      { users := [], events := [], read_models := [] } =
      (.ok (201, { id := "u-1", email := "a@example.com", full_name := "Ann",
                   created_at := 0 }),
       { users := [insertedUser "u-1" 0
            { email := "a@example.com", password := "pw1", full_name := "Ann" }],
         events := [], read_models := [] }) :=
  (register_unique_email "u-1" "u-2" 0 1
    { email := "a@example.com", password := "pw1", full_name := "Ann" }
    { users := [], events := [], read_models := [] } (by decide) (by decide)).1

/-- C5: reset-password answers 400 exactly when the token fails to decode
(bad signature or expired); every successfully decoded token answers 200
"Password updated", and when its subject claim is missing or matches no
stored user the whole state, the user store included, is unchanged. -/
theorem reset_password_outcomes (tok : SignedToken) (newpw : String) (s : Settings)
    (now : Nat) (st : AppState) :
    (∀ e, jwtDecode tok s.jwt_secret_key now = .error e →
      Routes.reset_password tok newpw s now st =
        (.error (.http 400 "Invalid or expired token" none), st))
    ∧ (∀ p, jwtDecode tok s.jwt_secret_key now = .ok p →
        (Routes.reset_password tok newpw s now st).1 = .ok (200, "Password updated")
        ∧ ((p.sub = none ∨ ∀ u ∈ st.users, some u._id ≠ p.sub) →
            Routes.reset_password tok newpw s now st =
              (.ok (200, "Password updated"), st))) := by
  constructor
  · intro e he
    unfold Routes.reset_password
    rw [he]
  · intro p hp
    constructor
    · unfold Routes.reset_password
      rw [hp]
    · intro hnou
      have hmatch : ∀ u ∈ st.users, mongoIdMatches p.sub u = false := by
        intro u hu
        cases hsub : p.sub with
        | none => rfl
        | some x =>
          rcases hnou with hnone | hall
          · rw [hsub] at hnone; exact absurd hnone (by simp)
          · have hne := hall u hu
            rw [hsub] at hne
            show (u._id == x) = false
            exact beq_eq_false_iff_ne.mpr (fun hx => hne (by rw [hx]))
      have hupd : update_password p.sub newpw st.users = st.users :=
        updateFirst_no_match _ _ _ hmatch
      unfold Routes.reset_password
      simp only [hp]
      rw [hupd]

theorem reset_password_outcomes_witness :
    Routes.reset_password { payload := { sub := some "ghost", exp := 100 }, key := "secret" }
        "NewPw2!" demoSettings 50 { users := [demoUser], events := [], read_models := [] } =
      (.ok (200, "Password updated"),
       { users := [demoUser], events := [], read_models := [] }) :=
  ((reset_password_outcomes
      { payload := { sub := some "ghost", exp := 100 }, key := "secret" }
      "NewPw2!" demoSettings 50
      { users := [demoUser], events := [], read_models := [] }).2
    { sub := some "ghost", exp := 100 } rfl).2 (by decide)

/-- C6: when the presented old password does not verify against the
caller's stored hash, change-password answers 400 and leaves the whole
state (so the stored hash, against which the old password still verifies)
untouched; when it does verify, the stored hash becomes the hash of the
new password. -/
theorem change_password_guard (d : PasswordUpdate) (uid : String) (st : AppState)
    (u : UserRec) (hu : find_one st.users uid = some u) :
    (verify_password d.old_password u.hashed_password = false →
      Routes.change_password d uid st =
        (.error (.http 400 "Old password incorrect" none), st))
    ∧ (verify_password d.old_password u.hashed_password = true →
      (Routes.change_password d uid st).1 = .ok (200, "Password changed successfully")
      ∧ find_one (Routes.change_password d uid st).2.users uid =
          some { u with hashed_password := hash_password d.new_password }) := by
  constructor
  · intro hv
    simp [Routes.change_password, hu, hv]
  · intro hv
    have hfind : find_one (update_password (some uid) d.new_password st.users) uid =
        some { u with hashed_password := hash_password d.new_password } := by
      have h2 := find?_updateFirst (fun w => w._id == uid)
        (fun w => { w with hashed_password := hash_password d.new_password })
        (fun w => rfl) st.users
      unfold find_one at hu
      rw [hu] at h2
      exact h2
    constructor
    · simp [Routes.change_password, hu, hv]
    · simp only [Routes.change_password, hu, hv]
      simpa using hfind

theorem change_password_guard_witness :
    (Routes.change_password { old_password := "OldPw1!", new_password := "NewPw9!" }
        "user-1" { users := [demoUser], events := [], read_models := [] }).1 =
      .ok (200, "Password changed successfully") :=
  ((change_password_guard { old_password := "OldPw1!", new_password := "NewPw9!" }
      "user-1" { users := [demoUser], events := [], read_models := [] } demoUser rfl).2
    rfl).1

/-- C10: patching a stored user's profile sets `full_name` to the patched
value unconditionally; the record returned and the record then stored both
keep the original `_id`, `email`, `hashed_password` and `created_at`. -/
theorem update_user_patches_full_name (uid v : String) (users : List UserRec)
    (u : UserRec) (hu : find_one users uid = some u) :
    (update_user uid v users).1 =
      some { _id := u._id, email := u.email, hashed_password := u.hashed_password,
             full_name := v, created_at := u.created_at }
    ∧ find_one (update_user uid v users).2 uid =
      some { _id := u._id, email := u.email, hashed_password := u.hashed_password,
             full_name := v, created_at := u.created_at } := by
  have h2 := find?_updateFirst (fun w => w._id == uid)
    (fun w => { w with full_name := v }) (fun w => rfl) users
  unfold find_one at hu
  rw [hu] at h2
  exact ⟨h2, h2⟩

theorem update_user_patches_full_name_witness :
    (update_user "user-1" "Alice B." [demoUser]).1 =
      some { _id := demoUser._id, email := demoUser.email,
             hashed_password := demoUser.hashed_password,
             full_name := "Alice B.", created_at := demoUser.created_at } :=
  (update_user_patches_full_name "user-1" "Alice B." [demoUser] demoUser rfl).1

/-- C9: bearer-token verification is independent of the user store — its
outcome in any state equals its outcome after any `update_password`, and a
well-signed unexpired token carrying a non-empty subject is accepted with
that subject both before and after the password change. -/
theorem token_validity_stateless (tok : SignedToken) (s : Settings) (now : Nat)
    (st : AppState) (uid : Option String) (pw : String) :
    authOutcome tok s now { st with users := update_password uid pw st.users } =
      authOutcome tok s now st
    ∧ (∀ u : String, tok.key = s.jwt_secret_key → now ≤ tok.payload.exp →
        tok.payload.sub = some u → u ≠ "" →
        authOutcome tok s now { st with users := update_password uid pw st.users } = .ok u
        ∧ authOutcome tok s now st = .ok u) := by
  refine ⟨rfl, ?_⟩
  intro u hk he hs hune
  have hok : get_current_user tok s.jwt_secret_key now = .ok u := by
    unfold get_current_user jwtDecode
    simp [hk, Nat.not_lt.mpr he, hs, hune]
  exact ⟨hok, hok⟩

theorem token_validity_stateless_witness :
    authOutcome { payload := { sub := some "user-1", exp := 100 }, key := "secret" }
        demoSettings 50
        { users := update_password (some "user-1") "NewPw3!" [demoUser],
          events := [], read_models := [] } = .ok "user-1" :=
  ((token_validity_stateless
      { payload := { sub := some "user-1", exp := 100 }, key := "secret" }
      demoSettings 50 { users := [demoUser], events := [], read_models := [] }
      (some "user-1") "NewPw3!").2 "user-1" rfl (by decide) rfl (by decide)).1

/-- C8: the event log is append-only and never durably projected — every
route either leaves the `events` collection exactly as it was (and every
route leaves `read_models` untouched) or, for booking creation, appends
one event at the end; and the booking listing is recomputed from the log
alone, so two states with equal logs list identically. -/
theorem event_log_append_only :
    (∀ fresh now d st, (Routes.register fresh now d st).2.events = st.events
        ∧ (Routes.register fresh now d st).2.read_models = st.read_models)
    ∧ (∀ username password s now st, (Routes.login username password s now st).2 = st)
    ∧ (∀ email s now st, (Routes.recover_password email s now st).2 = st)
    ∧ (∀ tok newpw s now st, (Routes.reset_password tok newpw s now st).2.events = st.events
        ∧ (Routes.reset_password tok newpw s now st).2.read_models = st.read_models)
    ∧ (∀ uid st, (Routes.read_profile uid st).2 = st)
    ∧ (∀ v uid st, (Routes.update_profile v uid st).2.events = st.events
        ∧ (Routes.update_profile v uid st).2.read_models = st.read_models)
    ∧ (∀ d uid st, (Routes.change_password d uid st).2.events = st.events
        ∧ (Routes.change_password d uid st).2.read_models = st.read_models)
    ∧ (∀ fresh now slot uid st,
        (Routes.create_booking fresh now slot uid st).2.events =
            st.events ++ [BookingCreated_create fresh uid slot now]
        ∧ (Routes.create_booking fresh now slot uid st).2.read_models = st.read_models)
    ∧ (∀ uid st, (Routes.list_bookings uid st).2 = st)
    ∧ (∀ uid st st', st.events = st'.events →
        (Routes.list_bookings uid st).1 = (Routes.list_bookings uid st').1) := by
  refine ⟨?_, ?_, ?_, ?_, ?_, ?_, ?_, ?_, ?_, ?_⟩
  · intro fresh now d st
    unfold Routes.register
    rcases h : register_user fresh now d st.users with e | ⟨user, users'⟩ <;> simp [h]
  · intro username password s now st
    unfold Routes.login
    rcases h : find_one_email st.users username with - | u <;> simp [h]
    split <;> rfl
  · intro email s now st
    unfold Routes.recover_password
    rcases h : find_one_email st.users email with - | u <;> simp [h]
  · intro tok newpw s now st
    unfold Routes.reset_password
    rcases h : jwtDecode tok s.jwt_secret_key now with e | p <;> simp [h]
  · intro uid st
    unfold Routes.read_profile
    rcases h : find_one st.users uid with - | u <;> simp [h]
  · intro v uid st
    unfold Routes.update_profile
    rcases h : update_user uid v st.users with ⟨- | u, users'⟩ <;> simp [h]
  · intro d uid st
    unfold Routes.change_password
    rcases h : find_one st.users uid with - | u <;> simp [h]
    split <;> exact ⟨rfl, rfl⟩
  · intro fresh now slot uid st
    exact ⟨rfl, rfl⟩
  · intro uid st
    unfold Routes.list_bookings
    rcases h : handle_list_bookings st.events uid with - | items <;> simp [h]
  · intro uid st st' hev
    unfold Routes.list_bookings
    rw [hev]
    rcases h : handle_list_bookings st'.events uid with - | items <;> simp [h]

theorem event_log_append_only_witness :
    (Routes.list_bookings "A"
        { users := [demoUser], events := demoLog, read_models := [] }).1 =
      (Routes.list_bookings "A"
        { users := [], events := demoLog, read_models := [] }).1 :=
  event_log_append_only.2.2.2.2.2.2.2.2.2 "A"
    { users := [demoUser], events := demoLog, read_models := [] }
    { users := [], events := demoLog, read_models := [] } rfl

end BookingEngine
